import Mathlib

/-!
Shallow embedding of the connection-pool core of the mysql client library:
the per-entry setup state machine, the pool get_connection loop, and the
condition-variable wait-with-timeout helper, as implemented in
include/boost/mysql/impl/connection_pool.hpp.
-/

namespace BoostMysql

/-- Lifecycle state of a pooled entry, mirroring pooled_connection::state_t. -/
inductive state_t where
  | not_connected : state_t
  | iddle : state_t
  | pending_reset : state_t
  | in_use : state_t
deriving DecidableEq, Repr

/-- Error codes: ok is the zero (falsy) code; err n stands for an arbitrary
nonzero code (resolve, connect, ping or timer failures reported by the
runtime); operation_aborted and pool_retries_exhausted are the two codes the
pool code names explicitly. -/
inductive error_code where
  | ok : error_code
  | operation_aborted : error_code
  | pool_retries_exhausted : error_code
  | err : Nat → error_code
deriving DecidableEq, Repr

/-- The truthiness test `if (err)` of the source. -/
def error_code.isError : error_code → Bool
  | .ok => false
  | _ => true

/-- A pooled_connection entry: lifecycle state, the locked flag, and the
identities of the session (conn_), timer and resolver sub-objects. The
session identity changes exactly when the source constructs a fresh
tcp_ssl_connection in place. -/
structure pooled_connection where
  state_ : state_t
  locked_ : Bool
  conn_ : Nat
  timer_ : Nat
  resolver_ : Nat
deriving DecidableEq, Repr

/-- The diagnostics out-parameter: an error message carrier. -/
structure diagnostics where
  msg : String
deriving DecidableEq, Repr

/-- diagnostics::clear. -/
def diagnostics.clear (_d : diagnostics) : diagnostics := { msg := "" }

/-- The asynchronous operations the pool code awaits. -/
inductive Op where
  | resolve : Op
  | connect : Op
  | ping : Op
  | close : Op
  | timer_wait : Op
  | lock : Op
  | cv_wait : Op
deriving DecidableEq, Repr

/-- Oracle for the asynchronous runtime: ec k op is the error code the k-th
awaited operation would complete with if it is op; connDiag k is the
diagnostics message async_connect writes when it fails at step k. -/
structure Env where
  ec : Nat → Op → error_code
  connDiag : Nat → String

/-- setup_op::max_num_tries. -/
def max_num_tries : Nat := 10

/-- setup_op::between_tries, in milliseconds. -/
def between_tries_ms : Nat := 1000

/-- initiate_wait::wait_timeout, in seconds. -/
def wait_timeout_s : Nat := 10

/-- Outcome of a completed setup operation: the completion error code, the
entry as left by the coroutine, the diagnostics object, and the number of
loop iterations (attempts) that were entered. -/
structure SetupOutcome where
  ec : error_code
  conn : pooled_connection
  diag : diagnostics
  attempts : Nat
deriving DecidableEq, Repr

/-- setup_op::complete: resetting the guard runs the deleter, which clears
the locked flag, then the composed operation completes with ec. -/
def setup_complete (e : error_code) (conn : pooled_connection) (diag : diagnostics)
    (attempts : Nat) : SetupOutcome :=
  { ec := e, conn := { conn with locked_ := false }, diag := diag, attempts := attempts }

/-- setup_op::complete_ok: set the state to in_use, clear the diagnostics,
then complete with the zero error code. -/
def setup_complete_ok (conn : pooled_connection) (diag : diagnostics)
    (attempts : Nat) : SetupOutcome :=
  setup_complete error_code.ok { conn with state_ := state_t.in_use } diag.clear attempts

/-- The retry loop of setup_op::operator(), one gas unit per remaining loop
iteration (gas = max_num_tries - num_tries_); n is the index of the next
awaited operation in the oracle. Branch structure follows the source:
not_connected resolves (a resolve failure sleeps, ignores the timer result
and continues), then connects (a connect failure sleeps and propagates a
timer failure), then completes ok; pending_reset completes ok at once;
iddle pings, and on ping failure closes ignoring the result, replaces the
session object keeping timer and resolver, marks the entry not_connected,
sleeps and propagates a timer failure; an in_use entry matches no branch and
the iteration falls through. When gas runs out the operation completes with
pool_retries_exhausted. -/
def setupLoop (env : Env) (gas : Nat) (n : Nat) (conn : pooled_connection)
    (diag : diagnostics) (attempts : Nat) : SetupOutcome :=
  match gas with
  | 0 => setup_complete error_code.pool_retries_exhausted conn diag attempts
  | g + 1 =>
    if conn.state_ = state_t.not_connected then
      if (env.ec n Op.resolve).isError then
        setupLoop env g (n + 2) conn diag (attempts + 1)
      else
        if (env.ec (n + 1) Op.connect).isError then
          if (env.ec (n + 2) Op.timer_wait).isError then
            setup_complete (env.ec (n + 2) Op.timer_wait) conn
              { msg := env.connDiag (n + 1) } (attempts + 1)
          else
            setupLoop env g (n + 3) conn { msg := env.connDiag (n + 1) } (attempts + 1)
        else
          setup_complete_ok conn diag (attempts + 1)
    else if conn.state_ = state_t.pending_reset then
      setup_complete_ok conn diag (attempts + 1)
    else if conn.state_ = state_t.iddle then
      if (env.ec n Op.ping).isError then
        if (env.ec (n + 2) Op.timer_wait).isError then
          setup_complete (env.ec (n + 2) Op.timer_wait)
            { conn with conn_ := conn.conn_ + 1, state_ := state_t.not_connected }
            diag (attempts + 1)
        else
          setupLoop env g (n + 3)
            { conn with conn_ := conn.conn_ + 1, state_ := state_t.not_connected }
            diag (attempts + 1)
      else
        setup_complete_ok conn diag (attempts + 1)
    else
      setupLoop env g n conn diag (attempts + 1)

/-- pooled_connection::async_setup starting its oracle at step n. -/
def setupFrom (env : Env) (n : Nat) (conn : pooled_connection) (diag : diagnostics) :
    SetupOutcome :=
  setupLoop env max_num_tries n conn diag 0

/-- pooled_connection::async_setup. -/
def setup (env : Env) (conn : pooled_connection) (diag : diagnostics) : SetupOutcome :=
  setupFrom env 0 conn diag

/-- Modelled from the spec: the eligibility test of connection_pool::find_connection,
whose definition is not among the given sources. Spec section 4.4 step 2: an entry
is selectable when locked = false and its state is NotConnected, Iddle or
PendingReset. -/
def eligible (c : pooled_connection) : Bool :=
  !c.locked_ &&
    (c.state_ == state_t.not_connected || c.state_ == state_t.iddle ||
      c.state_ == state_t.pending_reset)

/-- Modelled from the spec: connection_pool::find_connection, whose definition is
not among the given sources. Spec section 4.4 step 2: scan the entries and select
the first eligible one; first-fit over the insertion order. Returns the index and
the selected entry. -/
def find_connection : List pooled_connection → Option (Nat × pooled_connection)
  | [] => none
  | c :: rest =>
    if eligible c then some (0, c)
    else
      match find_connection rest with
      | some (i, e) => some (i + 1, e)
      | none => none

/-- Result of a completed get_connection: the error code passed to the
handler, the entry pointer passed to the handler (as an index into the
entries, or none for nullptr), the entries after the call, and the
diagnostics object. -/
structure GetConnResult where
  ec : error_code
  conn : Option Nat
  entries : List pooled_connection
  diag : diagnostics
deriving DecidableEq, Repr

/-- The loop of get_connection_op::operator(). Each iteration: await the
pool mutex (step n; the source never examines the lock error), run
find_connection; if an entry is found, set its locked flag under the mutex,
release the mutex and run setup (oracle steps n+1 onward); a setup error
completes with (error, nullptr), success completes with (ok, the entry);
if no entry is found, await the condition variable with timeout (step n+1;
the source never examines the wait result) and loop. Fuel bounds the number
of iterations we unfold; none means the operation has not completed within
the given fuel. -/
def get_connection_loop (env : Env) (fuel : Nat) (n : Nat)
    (entries : List pooled_connection) (diag : diagnostics) : Option GetConnResult :=
  match fuel with
  | 0 => none
  | f + 1 =>
    match find_connection entries with
    | some (i, c) =>
      if ((setupFrom env (n + 1) { c with locked_ := true } diag).ec).isError then
        some { ec := (setupFrom env (n + 1) { c with locked_ := true } diag).ec,
               conn := none,
               entries := (entries.set i { c with locked_ := true }).set i
                 (setupFrom env (n + 1) { c with locked_ := true } diag).conn,
               diag := (setupFrom env (n + 1) { c with locked_ := true } diag).diag }
      else
        some { ec := error_code.ok,
               conn := some i,
               entries := (entries.set i { c with locked_ := true }).set i
                 (setupFrom env (n + 1) { c with locked_ := true } diag).conn,
               diag := (setupFrom env (n + 1) { c with locked_ := true } diag).diag }
    | none =>
      get_connection_loop env f (n + 2) entries diag

/-- connection_pool::async_get_connection. -/
def get_connection (env : Env) (fuel : Nat) (entries : List pooled_connection)
    (diag : diagnostics) : Option GetConnResult :=
  get_connection_loop env fuel 0 entries diag

/-- The completion dispatch of initiate_wait::intermediate_handler: given
which member of the parallel group finished first (0 = the condition
variable wait, 1 = the timer) and the two completion codes, the handler is
invoked with the cv wait result if the cv finished first, and with
operation_aborted if the timeout finished first; the timer code ec2 is
ignored. -/
def wait_for_result (first : Fin 2) (ec1 : error_code) (_ec2 : error_code) : error_code :=
  if first = (0 : Fin 2) then ec1 else error_code.operation_aborted

/-- Pointwise agreement of two oracles on the operations whose results the
setup coroutine examines (resolve, connect, ping, timer waits) and on the
diagnostics written by connect. -/
def AgreeCore (env env2 : Env) : Prop :=
  (∀ k, env.ec k Op.resolve = env2.ec k Op.resolve) ∧
  (∀ k, env.ec k Op.connect = env2.ec k Op.connect) ∧
  (∀ k, env.ec k Op.ping = env2.ec k Op.ping) ∧
  (∀ k, env.ec k Op.timer_wait = env2.ec k Op.timer_wait) ∧
  ∀ k, env.connDiag k = env2.connDiag k

/-- An oracle where every awaited operation succeeds. -/
def envAllOk : Env := { ec := fun _ _ => error_code.ok, connDiag := fun _ => "x" }

/-- An oracle where ping fails with code 3 and timer waits fail with code 5. -/
def envC2 : Env :=
  { ec := fun _ op =>
      if op = Op.ping then error_code.err 3
      else if op = Op.timer_wait then error_code.err 5
      else error_code.ok,
    connDiag := fun _ => "d" }

/-- An oracle where every resolve fails with code 2. -/
def envC3 : Env :=
  { ec := fun _ op => if op = Op.resolve then error_code.err 2 else error_code.ok,
    connDiag := fun _ => "d" }

/-- An oracle where every connect fails with code 1. -/
def envC4 : Env :=
  { ec := fun _ op => if op = Op.connect then error_code.err 1 else error_code.ok,
    connDiag := fun _ => "cd" }

/-- An oracle where every ping fails with code 7. -/
def envC5 : Env :=
  { ec := fun _ op => if op = Op.ping then error_code.err 7 else error_code.ok,
    connDiag := fun _ => "m" }

/-- An oracle where the first resolve fails, every timer wait completes with
the cancellation code operation_aborted, and everything else succeeds. -/
def envC8 : Env :=
  { ec := fun n op =>
      if op = Op.resolve then (if n = 0 then error_code.err 4 else error_code.ok)
      else if op = Op.timer_wait then error_code.operation_aborted
      else error_code.ok,
    connDiag := fun _ => "d" }

/-- An oracle where every connect fails with code 6 and every timer wait
fails with code 9. -/
def envC8w : Env :=
  { ec := fun _ op =>
      if op = Op.connect then error_code.err 6
      else if op = Op.timer_wait then error_code.err 9
      else error_code.ok,
    connDiag := fun _ => "w" }

/-- A diagnostics object holding a stale message. -/
def diag0 : diagnostics := { msg := "boom" }

/-- An unlocked entry in state pending_reset. -/
def entryC1 : pooled_connection :=
  { state_ := state_t.pending_reset, locked_ := false, conn_ := 1, timer_ := 2, resolver_ := 3 }

/-- An unlocked entry in state iddle. -/
def entryC2 : pooled_connection :=
  { state_ := state_t.iddle, locked_ := false, conn_ := 9, timer_ := 4, resolver_ := 5 }

/-- An unlocked entry in state not_connected. -/
def entryC3 : pooled_connection :=
  { state_ := state_t.not_connected, locked_ := false, conn_ := 0, timer_ := 0, resolver_ := 0 }

/-- A locked entry in state not_connected, as setup receives it. -/
def entryC4 : pooled_connection :=
  { state_ := state_t.not_connected, locked_ := true, conn_ := 0, timer_ := 0, resolver_ := 0 }

/-- A locked entry in state iddle with distinctive sub-object identities. -/
def entryC5 : pooled_connection :=
  { state_ := state_t.iddle, locked_ := true, conn_ := 5, timer_ := 11, resolver_ := 13 }

/-- A locked entry in state iddle. -/
def entryC8i : pooled_connection :=
  { state_ := state_t.iddle, locked_ := true, conn_ := 0, timer_ := 0, resolver_ := 0 }

/-- The second entry of entriesC9: unlocked and iddle. -/
def entryC9b : pooled_connection :=
  { state_ := state_t.iddle, locked_ := false, conn_ := 1, timer_ := 1, resolver_ := 1 }

/-- A pool where the first entry is borrowed and the second is free. -/
def entriesC9 : List pooled_connection :=
  [{ state_ := state_t.in_use, locked_ := true, conn_ := 0, timer_ := 0, resolver_ := 0 },
    entryC9b]

/-- A pool where the first entry is locked mid-setup and the second is free. -/
def entriesC10 : List pooled_connection :=
  [{ state_ := state_t.not_connected, locked_ := true, conn_ := 3, timer_ := 3, resolver_ := 3 },
    { state_ := state_t.pending_reset, locked_ := false, conn_ := 7, timer_ := 8, resolver_ := 9 }]

/-- The completion of get_connection on envAllOk over the one-entry pool
holding entryC1: success, with the entry in use but no longer locked. -/
def resC1 : GetConnResult :=
  { ec := error_code.ok, conn := some 0,
    entries := [{ state_ := state_t.in_use, locked_ := false, conn_ := 1, timer_ := 2, resolver_ := 3 }],
    diag := { msg := "" } }

/-- The completion of get_connection on envC2 over the one-entry pool holding
entryC2: the timer error surfaces, the session was recreated, the entry is
left not_connected and unlocked. -/
def resC2 : GetConnResult :=
  { ec := error_code.err 5, conn := none,
    entries := [{ state_ := state_t.not_connected, locked_ := false, conn_ := 10, timer_ := 4, resolver_ := 5 }],
    diag := { msg := "boom" } }

/-- The completion of get_connection on envC3 over the one-entry pool holding
entryC3: retries exhaust and the entry is returned to its initial value. -/
def resC3 : GetConnResult :=
  { ec := error_code.pool_retries_exhausted, conn := none, entries := [entryC3],
    diag := { msg := "boom" } }

/-- The completion of get_connection on envAllOk over entriesC10: the second
entry is selected and brought to in_use. -/
def resC10 : GetConnResult :=
  { ec := error_code.ok, conn := some 1,
    entries := [{ state_ := state_t.not_connected, locked_ := true, conn_ := 3, timer_ := 3, resolver_ := 3 },
      { state_ := state_t.in_use, locked_ := false, conn_ := 7, timer_ := 8, resolver_ := 9 }],
    diag := { msg := "" } }

/-- A code is not an error exactly when it is the zero code. -/
theorem error_code.isError_false_iff (e : error_code) : e.isError = false ↔ e = error_code.ok := by
  cases e <;> simp [error_code.isError]

/-- Every completion of the setup loop leaves the locked flag cleared: the
guard reset inside setup_op::complete runs the deleter on every path. -/
theorem setupLoop_locked_false (env : Env) (gas : Nat) :
    ∀ n conn diag a, ((setupLoop env gas n conn diag a).conn).locked_ = false := by
  induction gas with
  | zero => intro n conn diag a; rfl
  | succ g ih =>
    intro n conn diag a
    simp only [setupLoop]
    split
    · split
      · exact ih (n + 2) conn diag (a + 1)
      · split
        · split
          · rfl
          · exact ih (n + 3) conn _ (a + 1)
        · rfl
    · split
      · rfl
      · split
        · split
          · split
            · rfl
            · exact ih (n + 3) _ diag (a + 1)
          · rfl
        · exact ih n conn diag (a + 1)

/-- The setup loop enters at most gas further iterations. -/
theorem setupLoop_attempts_le (env : Env) (gas : Nat) :
    ∀ n conn diag a, (setupLoop env gas n conn diag a).attempts ≤ a + gas := by
  induction gas with
  | zero => intro n conn diag a; exact Nat.le_refl a
  | succ g ih =>
    intro n conn diag a
    simp only [setupLoop]
    split
    · split
      · exact (ih (n + 2) conn diag (a + 1)).trans (by omega)
      · split
        · split
          · simp only [setup_complete]; omega
          · exact (ih (n + 3) conn _ (a + 1)).trans (by omega)
        · simp only [setup_complete_ok, setup_complete]; omega
    · split
      · simp only [setup_complete_ok, setup_complete]; omega
      · split
        · split
          · split
            · simp only [setup_complete]; omega
            · exact (ih (n + 3) _ diag (a + 1)).trans (by omega)
          · simp only [setup_complete_ok, setup_complete]; omega
        · exact (ih n conn diag (a + 1)).trans (by omega)

/-- A setup completion with the zero code can only arise from complete_ok,
which sets the state to in_use and clears the diagnostics. -/
theorem setupLoop_ok_inv (env : Env) (gas : Nat) :
    ∀ n conn diag a, (setupLoop env gas n conn diag a).ec = error_code.ok →
      ((setupLoop env gas n conn diag a).conn).state_ = state_t.in_use ∧
        ((setupLoop env gas n conn diag a).diag).msg = "" := by
  induction gas with
  | zero =>
    intro n conn diag a h
    exact absurd h (by simp [setupLoop, setup_complete])
  | succ g ih =>
    intro n conn diag a
    simp only [setupLoop]
    split
    · split
      · exact ih (n + 2) conn diag (a + 1)
      · split
        · split
          case isTrue hte =>
            intro h
            rw [setup_complete] at h
            simp only at h
            rw [h] at hte
            exact absurd hte (by simp [error_code.isError])
          · exact ih (n + 3) conn _ (a + 1)
        · intro _
          exact ⟨rfl, rfl⟩
    · split
      · intro _
        exact ⟨rfl, rfl⟩
      · split
        · split
          · split
            case isTrue hte =>
              intro h
              rw [setup_complete] at h
              simp only at h
              rw [h] at hte
              exact absurd hte (by simp [error_code.isError])
            · exact ih (n + 3) _ diag (a + 1)
          · intro _
            exact ⟨rfl, rfl⟩
        · exact ih n conn diag (a + 1)

/-- Two oracles that agree on the operations the setup coroutine examines
drive it to the same outcome: in particular the close results are never
examined. -/
theorem setupLoop_agree (env env2 : Env) (h : AgreeCore env env2) (gas : Nat) :
    ∀ n conn diag a, setupLoop env gas n conn diag a = setupLoop env2 gas n conn diag a := by
  obtain ⟨h1, h2, h3, h4, h5⟩ := h
  induction gas with
  | zero => intro n conn diag a; rfl
  | succ g ih =>
    intro n conn diag a
    simp only [setupLoop, h1, h2, h3, h4, h5, ih]

/-- Two oracles that agree on the operations the setup coroutine examines
drive the get_connection loop to the same outcome: the mutex lock results
and the condition-variable wait results are never examined. -/
theorem get_connection_loop_agree (env env2 : Env) (h : AgreeCore env env2) (fuel : Nat) :
    ∀ n entries diag,
      get_connection_loop env fuel n entries diag = get_connection_loop env2 fuel n entries diag := by
  induction fuel with
  | zero => intro n entries diag; rfl
  | succ f ih =>
    intro n entries diag
    simp only [get_connection_loop, setupFrom, setupLoop_agree env env2 h max_num_tries, ih]

/-- An entry selected by find_connection sits at the returned index and
passes the eligibility test. -/
theorem find_connection_spec :
    ∀ (entries : List pooled_connection) (i : Nat) (c : pooled_connection),
      find_connection entries = some (i, c) → entries[i]? = some c ∧ eligible c = true := by
  intro entries
  induction entries with
  | nil => intro i c h; simp [find_connection] at h
  | cons x xs ih =>
    intro i c h
    rw [find_connection] at h
    by_cases hx : eligible x
    · rw [if_pos hx] at h
      simp only [Option.some.injEq, Prod.mk.injEq] at h
      obtain ⟨hi, hc⟩ := h
      subst hi
      subst hc
      exact ⟨by simp, hx⟩
    · rw [if_neg hx] at h
      cases hfr : find_connection xs with
      | none => rw [hfr] at h; simp at h
      | some p =>
        obtain ⟨j, e⟩ := p
        rw [hfr] at h
        simp only [Option.some.injEq, Prod.mk.injEq] at h
        obtain ⟨hi, hc⟩ := h
        obtain ⟨hget, helig⟩ := ih j e hfr
        rw [← hi, ← hc]
        exact ⟨by simpa using hget, helig⟩

/-- Unfolding of the eligibility test. -/
theorem eligible_spec (c : pooled_connection) (h : eligible c = true) :
    c.locked_ = false ∧ c.state_ ≠ state_t.in_use ∧
      (c.state_ = state_t.not_connected ∨ c.state_ = state_t.iddle ∨
        c.state_ = state_t.pending_reset) := by
  simp only [eligible, Bool.and_eq_true, Bool.or_eq_true, Bool.not_eq_true', beq_iff_eq] at h
  obtain ⟨hl, hs⟩ := h
  refine ⟨hl, ?_, by tauto⟩
  rcases hs with (h1 | h2) | h3
  · rw [h1]; intro hx; cases hx
  · rw [h2]; intro hx; cases hx
  · rw [h3]; intro hx; cases hx

/-- Membership at an index implies the index is within bounds. -/
theorem getElem_some_lt {α : Type} (l : List α) (i : Nat) (a : α) (h : l[i]? = some a) :
    i < l.length :=
  (List.getElem?_eq_some.mp h).1

/-- Setting an index back to the element it already holds is the identity. -/
theorem set_getElem_self {α : Type} (l : List α) (i : Nat) (a : α) (h : l[i]? = some a) :
    l.set i a = l := by
  apply List.ext_getElem?
  intro j
  by_cases hj : j = i
  · subst hj
    rw [List.getElem?_set_self, h]
    exact getElem_some_lt l j a h
  · rw [List.getElem?_set_ne (fun hx => hj hx.symm)]

/-- Wrapper of setupLoop_locked_false at the async_setup entry point. -/
theorem setupFrom_locked_false (env : Env) (n : Nat) (conn : pooled_connection)
    (diag : diagnostics) : ((setupFrom env n conn diag).conn).locked_ = false :=
  setupLoop_locked_false env max_num_tries n conn diag 0

/-- Wrapper of setupLoop_ok_inv at the async_setup entry point. -/
theorem setupFrom_ok_inv (env : Env) (n : Nat) (conn : pooled_connection)
    (diag : diagnostics) (h : (setupFrom env n conn diag).ec = error_code.ok) :
    ((setupFrom env n conn diag).conn).state_ = state_t.in_use ∧
      ((setupFrom env n conn diag).diag).msg = "" :=
  setupLoop_ok_inv env max_num_tries n conn diag 0 h

/-- With every resolve succeeding, every connect failing and every backoff
sleep succeeding, each loop iteration burns one try and the loop ends by
exhausting the gas with pool_retries_exhausted. -/
theorem setupLoop_connect_fail_all (env : Env)
    (hres : ∀ k, (env.ec k Op.resolve).isError = false)
    (hcon : ∀ k, (env.ec k Op.connect).isError = true)
    (htmr : ∀ k, (env.ec k Op.timer_wait).isError = false) (gas : Nat) :
    ∀ n conn diag a, conn.state_ = state_t.not_connected →
      (setupLoop env gas n conn diag a).attempts = a + gas ∧
      (setupLoop env gas n conn diag a).ec = error_code.pool_retries_exhausted := by
  induction gas with
  | zero => intro n conn diag a _; exact ⟨rfl, rfl⟩
  | succ g ih =>
    intro n conn diag a hst
    have h2 := ih (n + 3) conn { msg := env.connDiag (n + 1) } (a + 1) hst
    simp [setupLoop, hst, hres, hcon, htmr]
    exact ⟨by rw [h2.1]; omega, h2.2⟩

/-- One iteration of the setup loop on an iddle entry whose ping fails and
whose backoff sleep succeeds: the session is closed (result ignored) and
replaced by a fresh one keeping the timer and the resolver, the entry is
marked not_connected, one try is burnt and the loop continues. -/
theorem setupLoop_iddle_ping_fail_step (env : Env) (gas n a : Nat)
    (conn : pooled_connection) (diag : diagnostics)
    (hst : conn.state_ = state_t.iddle)
    (hping : (env.ec n Op.ping).isError = true)
    (htmr : (env.ec (n + 2) Op.timer_wait).isError = false) :
    setupLoop env (gas + 1) n conn diag a =
      setupLoop env gas (n + 3)
        { conn with conn_ := conn.conn_ + 1, state_ := state_t.not_connected } diag (a + 1) := by
  simp [setupLoop, hst, hping, htmr]

/-- One iteration of the setup loop on a not_connected entry whose resolve
and connect both succeed: the operation completes ok. -/
theorem setupLoop_connect_ok_step (env : Env) (gas n a : Nat)
    (conn : pooled_connection) (diag : diagnostics)
    (hst : conn.state_ = state_t.not_connected)
    (hres : (env.ec n Op.resolve).isError = false)
    (hcon : (env.ec (n + 1) Op.connect).isError = false) :
    setupLoop env (gas + 1) n conn diag a = setup_complete_ok conn diag (a + 1) := by
  simp [setupLoop, hst, hres, hcon]

/-- C1 counterexample: a concrete successful get_connection (single
pending_reset entry, all operations succeed) whose returned entry is in
state in_use but has locked = false, because the guard reset inside
setup_op::complete runs the deleter on the success path too. -/
theorem get_connection_success_leaves_locked_false_cex :
    get_connection_loop envAllOk 1 0 [entryC1] diag0 = some resC1 ∧
    resC1.ec = error_code.ok ∧
    resC1.conn = some 0 ∧
    resC1.entries.map pooled_connection.locked_ = [false] ∧
    ¬ resC1.entries.map pooled_connection.locked_ = [true] :=
  ⟨rfl, rfl, rfl, rfl, by decide⟩

/-- C1 (amended): every successful completion of get_connection returns an
entry in state in_use with the diagnostics cleared, but with locked = false:
the release guard fires on every completion path, success included. -/
theorem get_connection_success_state (env : Env) (fuel : Nat) :
    ∀ n entries diag r, get_connection_loop env fuel n entries diag = some r →
      r.ec = error_code.ok →
      ∃ i c, r.conn = some i ∧ r.entries[i]? = some c ∧
        c.state_ = state_t.in_use ∧ c.locked_ = false ∧ r.diag.msg = "" := by
  induction fuel with
  | zero => intro n entries diag r h _; simp [get_connection_loop] at h
  | succ f ih =>
    intro n entries diag r h hok
    cases hfc : find_connection entries with
    | none =>
      simp only [get_connection_loop, hfc] at h
      exact ih (n + 2) entries diag r h hok
    | some p =>
      obtain ⟨i, c⟩ := p
      simp only [get_connection_loop, hfc] at h
      by_cases hse : ((setupFrom env (n + 1) { c with locked_ := true } diag).ec).isError
      · rw [if_pos hse] at h
        injection h with h
        rw [← h] at hok
        simp only at hok
        rw [hok] at hse
        exact absurd hse (by simp [error_code.isError])
      · rw [if_neg hse] at h
        injection h with h
        subst h
        have hok2 : (setupFrom env (n + 1) { c with locked_ := true } diag).ec =
            error_code.ok := (error_code.isError_false_iff _).mp (by simpa using hse)
        obtain ⟨hstate, hdiag⟩ := setupFrom_ok_inv env (n + 1) { c with locked_ := true } diag hok2
        have hlt : i < entries.length :=
          getElem_some_lt entries i c (find_connection_spec entries i c hfc).1
        refine ⟨i, (setupFrom env (n + 1) { c with locked_ := true } diag).conn, rfl, ?_,
          hstate, setupFrom_locked_false env (n + 1) _ diag, hdiag⟩
        rw [List.set_set, List.getElem?_set_self]
        simpa using hlt

/-- C1 witness: the amended statement evaluated on the concrete success of
the counterexample input. -/
theorem get_connection_success_state_witness :
    ∃ i c, resC1.conn = some i ∧ resC1.entries[i]? = some c ∧
      c.state_ = state_t.in_use ∧ c.locked_ = false ∧ resC1.diag.msg = "" :=
  get_connection_success_state envAllOk 1 0 [entryC1] diag0 resC1 rfl rfl

/-- C2 counterexample: a concrete failing get_connection (iddle entry, ping
fails, backoff sleep fails with code 5) that returns the error with a null
entry while the locked flag is already false at completion, contradicting
the claim that locked remains true until the borrow is dropped. -/
theorem get_connection_failure_locked_cleared_cex :
    get_connection_loop envC2 1 0 [entryC2] diag0 = some resC2 ∧
    resC2.ec = error_code.err 5 ∧
    resC2.conn = none ∧
    resC2.entries.map pooled_connection.locked_ = [false] ∧
    ¬ resC2.entries.map pooled_connection.locked_ = [true] :=
  ⟨rfl, rfl, rfl, rfl, by decide⟩

/-- C2 (amended): when setup fails inside get_connection the error is
surfaced, but the locked flag does not remain true: the guard reset inside
setup_op::complete clears it on every completion of setup, so the flag is
already false when get_connection completes. -/
theorem setup_completion_clears_locked (env : Env) (conn : pooled_connection)
    (diag : diagnostics) : ((setup env conn diag).conn).locked_ = false :=
  setupLoop_locked_false env max_num_tries 0 conn diag 0

/-- C3: a failing get_connection leaves every locked flag as it found it:
the selected entry was eligible (hence unlocked), and the release guard has
cleared its flag again by completion; no other entry is touched. -/
theorem get_connection_failure_no_lock_leak (env : Env) (fuel : Nat) :
    ∀ n entries diag r, get_connection_loop env fuel n entries diag = some r →
      (r.ec).isError = true →
      r.entries.map pooled_connection.locked_ = entries.map pooled_connection.locked_ := by
  induction fuel with
  | zero => intro n entries diag r h _; simp [get_connection_loop] at h
  | succ f ih =>
    intro n entries diag r h hfail
    cases hfc : find_connection entries with
    | none =>
      simp only [get_connection_loop, hfc] at h
      exact ih (n + 2) entries diag r h hfail
    | some p =>
      obtain ⟨i, c⟩ := p
      simp only [get_connection_loop, hfc] at h
      obtain ⟨hget, helig⟩ := find_connection_spec entries i c hfc
      by_cases hse : ((setupFrom env (n + 1) { c with locked_ := true } diag).ec).isError
      · rw [if_pos hse] at h
        injection h with h
        subst h
        simp only [List.set_set, List.map_set, setupFrom_locked_false]
        have hmget : (entries.map pooled_connection.locked_)[i]? = some false := by
          rw [List.getElem?_map, hget]
          simp [(eligible_spec c helig).1]
        exact set_getElem_self _ i false hmget
      · rw [if_neg hse] at h
        injection h with h
        rw [← h] at hfail
        simp [error_code.isError] at hfail

/-- C3 witness: the concrete exhausted get_connection of envC3 leaves the
locked flags of the one-entry pool unchanged. -/
theorem get_connection_failure_no_lock_leak_witness :
    resC3.entries.map pooled_connection.locked_ = [entryC3].map pooled_connection.locked_ :=
  get_connection_failure_no_lock_leak envC3 1 0 [entryC3] diag0 resC3 rfl rfl

/-- C4: the setup state machine performs at most max_num_tries attempts;
when every connect fails (resolves and backoff sleeps succeeding) it
performs exactly max_num_tries attempts and completes with
pool_retries_exhausted. -/
theorem setup_bounded_retries (env : Env) (conn : pooled_connection) (diag : diagnostics)
    (hst : conn.state_ = state_t.not_connected)
    (hres : ∀ k, (env.ec k Op.resolve).isError = false)
    (hcon : ∀ k, (env.ec k Op.connect).isError = true)
    (htmr : ∀ k, (env.ec k Op.timer_wait).isError = false) :
    (∀ env2 conn2 diag2, (setup env2 conn2 diag2).attempts ≤ max_num_tries) ∧
    (setup env conn diag).attempts = max_num_tries ∧
    (setup env conn diag).ec = error_code.pool_retries_exhausted := by
  refine ⟨fun env2 conn2 diag2 => ?_, ?_, ?_⟩
  · exact setupLoop_attempts_le env2 max_num_tries 0 conn2 diag2 0
  · exact (setupLoop_connect_fail_all env hres hcon htmr max_num_tries 0 conn diag 0 hst).1
  · exact (setupLoop_connect_fail_all env hres hcon htmr max_num_tries 0 conn diag 0 hst).2

/-- C4 witness: on the oracle where every connect fails with code 1, setup
makes exactly ten attempts and reports pool_retries_exhausted. -/
theorem setup_bounded_retries_witness :
    (∀ env2 conn2 diag2, (setup env2 conn2 diag2).attempts ≤ max_num_tries) ∧
    (setup envC4 entryC4 diag0).attempts = max_num_tries ∧
    (setup envC4 entryC4 diag0).ec = error_code.pool_retries_exhausted :=
  setup_bounded_retries envC4 entryC4 diag0 rfl (fun _ => rfl) (fun _ => rfl) (fun _ => rfl)

/-- C5: after a ping failure on an iddle entry, setup closes the session
ignoring the close result (the outcome does not depend on the close codes),
replaces the session with a fresh object keeping the same timer and
resolver, and the following successful re-establishment completes in_use
with the new session object, not the old one. -/
theorem setup_session_recreation (env : Env) (conn : pooled_connection) (diag : diagnostics)
    (hst : conn.state_ = state_t.iddle)
    (hping : (env.ec 0 Op.ping).isError = true)
    (htmr : (env.ec 2 Op.timer_wait).isError = false)
    (hres : (env.ec 3 Op.resolve).isError = false)
    (hcon : (env.ec 4 Op.connect).isError = false) :
    (setup env conn diag).ec = error_code.ok ∧
    ((setup env conn diag).conn).conn_ = conn.conn_ + 1 ∧
    ¬ ((setup env conn diag).conn).conn_ = conn.conn_ ∧
    ((setup env conn diag).conn).timer_ = conn.timer_ ∧
    ((setup env conn diag).conn).resolver_ = conn.resolver_ ∧
    ((setup env conn diag).conn).state_ = state_t.in_use ∧
    ∀ g : Nat → error_code,
      setup { env with ec := fun k op => if op = Op.close then g k else env.ec k op } conn diag =
        setup env conn diag := by
  have hstep : setup env conn diag =
      setup_complete_ok { conn with conn_ := conn.conn_ + 1, state_ := state_t.not_connected }
        diag 2 := by
    have h10 : max_num_tries = 9 + 1 := rfl
    have h9 : (9 : Nat) = 8 + 1 := rfl
    rw [setup, setupFrom, h10, setupLoop_iddle_ping_fail_step env 9 0 0 conn diag hst hping htmr,
      h9, setupLoop_connect_ok_step env 8 3 1 _ diag rfl hres hcon]
  refine ⟨?_, ?_, ?_, ?_, ?_, ?_, fun g => ?_⟩
  · rw [hstep]; rfl
  · rw [hstep]; rfl
  · rw [hstep]; simp [setup_complete_ok, setup_complete]
  · rw [hstep]; rfl
  · rw [hstep]; rfl
  · rw [hstep]; rfl
  · exact setupLoop_agree
      { env with ec := fun k op => if op = Op.close then g k else env.ec k op } env
      ⟨fun k => rfl, fun k => rfl, fun k => rfl, fun k => rfl, fun k => rfl⟩
      max_num_tries 0 conn diag 0

/-- C5 witness: the theorem evaluated on envC5 and the iddle entry with
session 5, timer 11, resolver 13. -/
theorem setup_session_recreation_witness :
    (setup envC5 entryC5 diag0).ec = error_code.ok ∧
    ((setup envC5 entryC5 diag0).conn).conn_ = entryC5.conn_ + 1 ∧
    ¬ ((setup envC5 entryC5 diag0).conn).conn_ = entryC5.conn_ ∧
    ((setup envC5 entryC5 diag0).conn).timer_ = entryC5.timer_ ∧
    ((setup envC5 entryC5 diag0).conn).resolver_ = entryC5.resolver_ ∧
    ((setup envC5 entryC5 diag0).conn).state_ = state_t.in_use ∧
    ∀ g : Nat → error_code,
      setup { envC5 with ec := fun k op => if op = Op.close then g k else envC5.ec k op }
          entryC5 diag0 =
        setup envC5 entryC5 diag0 :=
  setup_session_recreation envC5 entryC5 diag0 rfl rfl rfl rfl rfl

/-- C6: the parallel-group completion handler of the pool wait reports the
condition-variable result when the cv wait finishes first, and
operation_aborted when the timeout finishes first, whatever the timer
reported. -/
theorem wait_for_first_decides (ec1 ec2 : error_code) :
    wait_for_result 0 ec1 ec2 = ec1 ∧
    wait_for_result 1 ec1 ec2 = error_code.operation_aborted :=
  ⟨rfl, rfl⟩

/-- C7: the result of the internal condition-variable wait (notification or
timeout) is never examined by get_connection: replacing all cv wait results
by arbitrary codes leaves the outcome unchanged, the loop simply re-acquires
the mutex and re-scans. -/
theorem get_connection_ignores_wait_result (env : Env) (f : Nat → error_code)
    (fuel n : Nat) (entries : List pooled_connection) (diag : diagnostics) :
    get_connection_loop
        { env with ec := fun k op => if op = Op.cv_wait then f k else env.ec k op }
        fuel n entries diag =
      get_connection_loop env fuel n entries diag :=
  get_connection_loop_agree
    { env with ec := fun k op => if op = Op.cv_wait then f k else env.ec k op } env
    ⟨fun _ => rfl, fun _ => rfl, fun _ => rfl, fun _ => rfl, fun _ => rfl⟩
    fuel n entries diag

/-- C8 counterexample: in the resolve-failure retry path the backoff sleep
result is not examined: with the first resolve failing and the sleep
completing with the cancellation code operation_aborted, setup continues to
a second attempt and succeeds instead of completing with the sleep error. -/
theorem setup_resolve_sleep_cancel_ignored_cex :
    (envC8.ec 0 Op.resolve).isError = true ∧
    envC8.ec 1 Op.timer_wait = error_code.operation_aborted ∧
    (setup envC8 entryC4 diag0).ec = error_code.ok ∧
    (setup envC8 entryC4 diag0).attempts = 2 :=
  ⟨rfl, rfl, rfl, rfl⟩

/-- C8 (amended): a backoff-sleep error, cancellation included, propagates
outward in the connect-failure retry path and in the iddle-reconnect retry
path (setup completes with the sleep error); the resolve-failure retry path
ignores the sleep result. -/
theorem setup_sleep_error_propagates (env : Env) (gas n a : Nat)
    (conn : pooled_connection) (diag : diagnostics) :
    (conn.state_ = state_t.not_connected → (env.ec n Op.resolve).isError = false →
      (env.ec (n + 1) Op.connect).isError = true →
      (env.ec (n + 2) Op.timer_wait).isError = true →
      (setupLoop env (gas + 1) n conn diag a).ec = env.ec (n + 2) Op.timer_wait) ∧
    (conn.state_ = state_t.iddle → (env.ec n Op.ping).isError = true →
      (env.ec (n + 2) Op.timer_wait).isError = true →
      (setupLoop env (gas + 1) n conn diag a).ec = env.ec (n + 2) Op.timer_wait) := by
  constructor
  · intro hst hres hcon htmr
    simp [setupLoop, hst, hres, hcon, htmr, setup_complete]
  · intro hst hping htmr
    simp [setupLoop, hst, hping, htmr, setup_complete]

/-- C8 witness: the two propagating paths evaluated on concrete oracles:
envC8w (connect fails, sleep fails with code 9) and envC2 (ping fails,
sleep fails with code 5). -/
theorem setup_sleep_error_propagates_witness :
    (setupLoop envC8w (9 + 1) 0 entryC4 diag0 0).ec = envC8w.ec 2 Op.timer_wait ∧
    (setupLoop envC2 (9 + 1) 0 entryC8i diag0 0).ec = envC2.ec 2 Op.timer_wait :=
  ⟨(setup_sleep_error_propagates envC8w 9 0 0 entryC4 diag0).1 rfl rfl rfl rfl,
   (setup_sleep_error_propagates envC2 9 0 0 entryC8i diag0).2 rfl rfl rfl⟩

/-- C9: an entry selected by find_connection is unlocked and in one of the
states NotConnected, Iddle, PendingReset; hence the entry get_connection
hands to setup, after setting its locked flag under the pool mutex,
satisfies both assertions at the entry of the setup coroutine: locked =
true and state different from in_use. -/
theorem get_connection_setup_preconditions (entries : List pooled_connection)
    (i : Nat) (c : pooled_connection) (h : find_connection entries = some (i, c)) :
    entries[i]? = some c ∧ c.locked_ = false ∧
      (c.state_ = state_t.not_connected ∨ c.state_ = state_t.iddle ∨
        c.state_ = state_t.pending_reset) ∧
      ({ c with locked_ := true } : pooled_connection).locked_ = true ∧
      ¬ ({ c with locked_ := true } : pooled_connection).state_ = state_t.in_use := by
  obtain ⟨hget, helig⟩ := find_connection_spec entries i c h
  obtain ⟨hl, hni, hs⟩ := eligible_spec c helig
  exact ⟨hget, hl, hs, rfl, hni⟩

/-- C9 witness: on a pool whose first entry is borrowed, find_connection
selects the second, free entry, and the locked copy handed to setup meets
both assertions. -/
theorem get_connection_setup_preconditions_witness :
    entriesC9[1]? = some entryC9b ∧ entryC9b.locked_ = false ∧
      (entryC9b.state_ = state_t.not_connected ∨ entryC9b.state_ = state_t.iddle ∨
        entryC9b.state_ = state_t.pending_reset) ∧
      ({ entryC9b with locked_ := true } : pooled_connection).locked_ = true ∧
      ¬ ({ entryC9b with locked_ := true } : pooled_connection).state_ = state_t.in_use :=
  get_connection_setup_preconditions entriesC9 1 entryC9b rfl

/-- C10: a completed get_connection passes a null entry pointer to its
handler exactly on non-success codes: on an error the pointer is null, and
on success it indexes an existing entry of the pool. -/
theorem get_connection_null_iff_error (env : Env) (fuel : Nat) :
    ∀ n entries diag r, get_connection_loop env fuel n entries diag = some r →
      ((r.ec).isError = true → r.conn = none) ∧
      ((r.ec).isError = false → ∃ i c, r.conn = some i ∧ r.entries[i]? = some c) := by
  induction fuel with
  | zero => intro n entries diag r h; simp [get_connection_loop] at h
  | succ f ih =>
    intro n entries diag r h
    cases hfc : find_connection entries with
    | none =>
      simp only [get_connection_loop, hfc] at h
      exact ih (n + 2) entries diag r h
    | some p =>
      obtain ⟨i, c⟩ := p
      simp only [get_connection_loop, hfc] at h
      by_cases hse : ((setupFrom env (n + 1) { c with locked_ := true } diag).ec).isError
      · rw [if_pos hse] at h
        injection h with h
        subst h
        exact ⟨fun _ => rfl, fun hok => absurd hok (by simp [hse])⟩
      · rw [if_neg hse] at h
        injection h with h
        subst h
        refine ⟨fun hbad => absurd hbad (by simp [error_code.isError]), fun _ => ?_⟩
        have hlt : i < entries.length :=
          getElem_some_lt entries i c (find_connection_spec entries i c hfc).1
        refine ⟨i, (setupFrom env (n + 1) { c with locked_ := true } diag).conn, rfl, ?_⟩
        rw [List.set_set, List.getElem?_set_self]
        simpa using hlt

/-- C10 witness: on the two-entry pool entriesC10 the call succeeds and the
handler receives index 1, a valid entry of the pool. -/
theorem get_connection_null_iff_error_witness :
    ((resC10.ec).isError = true → resC10.conn = none) ∧
    ((resC10.ec).isError = false → ∃ i c, resC10.conn = some i ∧ resC10.entries[i]? = some c) :=
  get_connection_null_iff_error envAllOk 1 0 entriesC10 diag0 resC10 rfl

end BoostMysql
